import Mathlib

/-!
Shallow embedding of the distance-measurement subsystem of `src/app.js`.

`src/app.js` concatenates three script variants of the same 3D viewer:

* variant 1 (lines 1-246): line-only measurement (`pickedPoints`, `pickedLine`,
  `clearMeasure`, `updateLine`, `onPointerDown`, button handlers);
* variant 2 (lines 247-420): no measurement subsystem at all;
* variant 3 (lines 421-826): sphere-marker measurement (`measurePoints`,
  `measureObjects`, `onCanvasClick`, `addMeasurePoint`, `resetMeasureState`,
  button and Escape handlers) together with the report export
  (`getFormData`, `exportToCSV`, `exportToWord`).

World points are modelled with rational coordinates (the JS numbers), the
external three.js raycaster and `Vector3.distanceTo` are abstracted as function
parameters, and DOM text content is modelled as `String` state.
-/

/-- A world-space point (three.js `Vector3`). -/
structure Pt where
  x : ℚ
  y : ℚ
  z : ℚ
deriving DecidableEq

/-- Squared Euclidean distance between two world points. The external three.js
call `Vector3.distanceTo` returns the nonnegative square root of this. -/
def euclidSq (a b : Pt) : ℚ :=
  (a.x - b.x) ^ 2 + (a.y - b.y) ^ 2 + (a.z - b.z) ^ 2

/-- Left-pad a digit string with zeros to width `n` (decimal rendering helper). -/
def padZeros (n : Nat) (s : String) : String :=
  if s.length < n then String.mk (List.replicate (n - s.length) '0') ++ s else s

/-- JS `Number.prototype.toFixed` on an exact rational value: round the
magnitude to `n` decimal places, ties upward (as the ECMAScript algorithm
does), and render with exactly `n` fractional digits. The rounded scaled
magnitude `⌊|q|·10^n + 1/2⌋` is computed on the reduced numerator and
denominator as `(2·|num|·10^n + den) / (2·den)` in integer division. -/
def toFixed (n : Nat) (q : ℚ) : String :=
  let a : Nat := q.num.natAbs * 10 ^ n
  let m : Nat := (2 * a + q.den) / (2 * q.den)
  let ip : Nat := m / 10 ^ n
  let fp : Nat := m % 10 ^ n
  let base : String :=
    Nat.repr ip ++ (if n = 0 then "" else "." ++ padZeros n (Nat.repr fp))
  if q.num < 0 then "-" ++ base else base

/-- The label with which both variants prefix the measurement text element. -/
def measureLabel : String := "量測值："

/-- The placeholder display text, written by `setMeasureText("量測值：—")`
(variant 1, line 159) and by the clear handler (variant 3, line 644). -/
def dashText : String := "量測值：—"

/-- Whether the pattern (second argument) occurs at the head of the string. -/
def listStartsWith : List Char → List Char → Bool
  | _, [] => true
  | [], _ :: _ => false
  | c :: cs, p :: ps => c == p && listStartsWith cs ps

/-- Replace the first occurrence of `pat` by `rep` in a character list. -/
def listReplaceFirst (pat rep : List Char) : List Char → List Char
  | [] => []
  | c :: cs =>
    if listStartsWith (c :: cs) pat then rep ++ (c :: cs).drop pat.length
    else c :: listReplaceFirst pat rep cs

/-- JS `String.prototype.replace` with a plain-string pattern: replaces the
first occurrence only (and prepends `rep` when the pattern is empty). -/
def jsReplaceFirst (pat rep s : String) : String :=
  if pat.data.isEmpty then String.mk (rep.data ++ s.data)
  else String.mk (listReplaceFirst pat.data rep.data s.data)

/-- The display value carried by a measurement text: the text with the leading
`量測值：` label stripped. This is what the spec calls the formatted distance
or placeholder returned by `getDisplayText`. -/
def displayOf (t : String) : String :=
  if listStartsWith t.data measureLabel.data then
    String.mk (t.data.drop measureLabel.data.length)
  else t

/-- Scene-graph objects relevant to picking. Variant 1 adds the ambient light,
the directional light and the grid helper at startup (lines 51-66), the loaded
model (line 105) and the measurement line (line 181) to `scene.children`. -/
inductive SceneObj where
  | ambientLight
  | dirLight
  | gridHelper
  | model
  | measureLine
deriving DecidableEq

namespace V1

/-- Mutable state of variant 1 (lines 144-147 plus the scene): the measurement
variables, the `measureText` element content, whether the model has loaded
(`modelRoot`), and `scene.children`. -/
structure State where
  isMeasuring : Bool
  pickedPoints : List Pt
  pickedLine : Bool
  lastDistance : ℚ
  measureText : String
  modelRoot : Bool
  children : List SceneObj
deriving DecidableEq

/-- `clearMeasure()` (lines 156-167): drop the points, reset the distance and
text, and remove the line object from the scene when it exists. -/
def clearMeasure (s : State) : State :=
  let s := { s with pickedPoints := [], lastDistance := 0, measureText := dashText }
  if s.pickedLine then
    { s with children := s.children.erase SceneObj.measureLine, pickedLine := false }
  else s

/-- `updateLine()` (lines 169-186); `d3` abstracts `Vector3.distanceTo`. -/
def updateLine (d3 : Pt → Pt → ℚ) (s : State) : State :=
  let s :=
    if s.pickedLine then
      { s with children := s.children.erase SceneObj.measureLine, pickedLine := false }
    else s
  if s.pickedPoints.length < 2 then s
  else
    match s.pickedPoints with
    | p0 :: p1 :: _ =>
      let d := d3 p0 p1
      { s with pickedLine := true,
               children := s.children ++ [SceneObj.measureLine],
               lastDistance := d,
               measureText := measureLabel ++ toFixed 2 d ++ " m" }
    | _ => s

/-- The target list of the raycast in `onPointerDown` (line 197):
`modelRoot ? [modelRoot] : scene.children`. -/
def pickTargets (s : State) : List SceneObj :=
  if s.modelRoot then [SceneObj.model] else s.children

/-- `onPointerDown(e)` (lines 188-210). `raycast` abstracts
`raycaster.intersectObjects(targets, true)` reduced to its nearest hit point
(`hits[0].point`), as a function of the target list. -/
def onPointerDown (d3 : Pt → Pt → ℚ) (raycast : List SceneObj → Option Pt)
    (s : State) : State :=
  if s.isMeasuring = false then s
  else
    match raycast (pickTargets s) with
    | none => s
    | some p =>
      let s := { s with pickedPoints := s.pickedPoints ++ [p] }
      let s :=
        if 2 < s.pickedPoints.length then
          let s := clearMeasure s
          { s with pickedPoints := s.pickedPoints ++ [p] }
        else s
      if s.pickedPoints.length = 2 then updateLine d3 s else s

/-- The `btnMeasure` click handler (lines 214-217): toggles `isMeasuring` and
the button style only; no measurement state is touched. -/
def toggleMeasureClick (s : State) : State :=
  { s with isMeasuring := !s.isMeasuring }

/-- Effect of the OBJ-load callback on the modelled state (lines 103-105):
`modelRoot = obj; scene.add(obj)`. -/
def modelLoadDone (s : State) : State :=
  { s with modelRoot := true, children := s.children ++ [SceneObj.model] }

/-- Initial variant-1 state: measurement variables per lines 144-147, no model
yet, scene children per lines 51-66. Modelled from the spec: the initial
content of the `measureText` element comes from `index.html`, which is not
under `src/`; the spec's "no measurement" placeholder dash is used. -/
def initState : State :=
  { isMeasuring := false, pickedPoints := [], pickedLine := false,
    lastDistance := 0, measureText := dashText, modelRoot := false,
    children := [SceneObj.ambientLight, SceneObj.dirLight, SceneObj.gridHelper] }

end V1

/-- External events driving variant 1. A pointer-down event carries the
raycaster outcome as a function of the target list it is given. -/
inductive V1Event where
  | pointerDown (raycast : List SceneObj → Option Pt)
  | measureBtn
  | clearBtn
  | modelLoad

/-- One event step of variant 1 (the listener bindings, lines 212-219 and the
loader callback). -/
def stepV1 (d3 : Pt → Pt → ℚ) : V1Event → V1.State → V1.State
  | V1Event.pointerDown raycast, s => V1.onPointerDown d3 raycast s
  | V1Event.measureBtn, s => V1.toggleMeasureClick s
  | V1Event.clearBtn, s => V1.clearMeasure s
  | V1Event.modelLoad, s => V1.modelLoadDone s

/-- Run variant 1 over an event sequence from a given state. -/
def runV1From (d3 : Pt → Pt → ℚ) (s : V1.State) (es : List V1Event) : V1.State :=
  es.foldl (fun s e => stepV1 d3 e s) s

/-- Run variant 1 over an event sequence from its initial state. -/
def runV1 (d3 : Pt → Pt → ℚ) (es : List V1Event) : V1.State :=
  runV1From d3 V1.initState es

/-- Measurement scene objects of variant 3: sphere glyphs (one per pick,
line 712) and the connecting segment line (line 725). -/
inductive V3Obj where
  | sphere (p : Pt)
  | segment (p q : Pt)
deriving DecidableEq

namespace V3

/-- Mutable state of variant 3 (lines 429-436): the measurement variables, the
`measureText` element content and whether the model has loaded. The
`measureObjects` list holds exactly the measurement visuals currently in the
scene (every object pushed to it is `scene.add`ed, and the clear handler is the
only place that `scene.remove`s them, lines 640-643). -/
structure State where
  isMeasuring : Bool
  measurePoints : List Pt
  measureObjects : List V3Obj
  measureText : String
  loadedModel : Bool
deriving DecidableEq

/-- `addMeasurePoint(point)` (lines 706-734); `d3` abstracts
`Vector3.distanceTo`. -/
def addMeasurePoint (d3 : Pt → Pt → ℚ) (point : Pt) (s : State) : State :=
  let s := { s with measurePoints := s.measurePoints ++ [point],
                    measureObjects := s.measureObjects ++ [V3Obj.sphere point] }
  if s.measurePoints.length = 2 then
    match s.measurePoints with
    | p1 :: p2 :: _ =>
      let d := d3 p1 p2
      { s with measureObjects := s.measureObjects ++ [V3Obj.segment p1 p2],
               measureText := measureLabel ++ toFixed 3 d ++ " m",
               measurePoints := [] }
    | _ => s
  else s

/-- `onCanvasClick(event)` (lines 690-704); `modelHit` abstracts
`raycaster.intersectObject(loadedModel, true)` reduced to its nearest hit
(`intersects[0].point`). -/
def onCanvasClick (d3 : Pt → Pt → ℚ) (modelHit : Option Pt) (s : State) : State :=
  if !s.isMeasuring || !s.loadedModel then s
  else
    match modelHit with
    | some point => addMeasurePoint d3 point s
    | none => s

/-- The raycast target of variant 3 (line 698): the loaded model only. -/
def rayTargets : List SceneObj := [SceneObj.model]

/-- `resetMeasureState()` (lines 674-681): leave measurement mode and drop the
in-progress points; the rest of the body restyles the button and cursor only. -/
def resetMeasureState (s : State) : State :=
  { s with isMeasuring := false, measurePoints := [] }

/-- The `btnMeasure` click handler (lines 620-630): toggle the mode; when
arming, restyle and start with an empty points list; when disarming, call
`resetMeasureState`. -/
def measureBtnClick (s : State) : State :=
  let s := { s with isMeasuring := !s.isMeasuring }
  if s.isMeasuring then { s with measurePoints := [] }
  else resetMeasureState s

/-- The Escape keydown handler (lines 632-636). -/
def escapeKeyDown (s : State) : State :=
  if s.isMeasuring then resetMeasureState s else s

/-- The `btnClear` click handler (lines 639-645): `scene.remove` every object
in `measureObjects`, then reset the lists and the text. -/
def clearBtnClick (s : State) : State :=
  { s with measureObjects := [], measurePoints := [], measureText := dashText }

/-- Effect of the model-load callback on the modelled state (line 581). -/
def modelLoadDone3 (s : State) : State :=
  { s with loadedModel := true }

/-- Initial variant-3 state (lines 430-436). Modelled from the spec: the
initial content of the `measureText` element comes from `index.html`, which is
not under `src/`; the spec's placeholder dash is used. -/
def initState3 : State :=
  { isMeasuring := false, measurePoints := [], measureObjects := [],
    measureText := dashText, loadedModel := false }

/-- `getDisplayText` (spec section 6): the current formatted distance or
placeholder that the export subsystem reads. Modelled from the spec: in the
code this value is the `measureText` content with its `量測值：` label
stripped, exactly what `getFormData` computes into `measureVal`. -/
def getDisplayText (s : State) : String := displayOf s.measureText

end V3

/-- External events driving variant 3. A canvas click carries the outcome of
the model-only raycast. -/
inductive V3Event where
  | canvasClick (modelHit : Option Pt)
  | measureBtn
  | clearBtn
  | escapeKey
  | modelLoad

/-- One event step of variant 3 (the listener bindings of `initThree` and
`setupUI`, lines 506 and 617-672, plus the loader callback). -/
def stepV3 (d3 : Pt → Pt → ℚ) : V3Event → V3.State → V3.State
  | V3Event.canvasClick hit, s => V3.onCanvasClick d3 hit s
  | V3Event.measureBtn, s => V3.measureBtnClick s
  | V3Event.clearBtn, s => V3.clearBtnClick s
  | V3Event.escapeKey, s => V3.escapeKeyDown s
  | V3Event.modelLoad, s => V3.modelLoadDone3 s

/-- Run variant 3 over an event sequence from a given state. -/
def runV3From (d3 : Pt → Pt → ℚ) (s : V3.State) (es : List V3Event) : V3.State :=
  es.foldl (fun s e => stepV3 d3 e s) s

/-- Run variant 3 over an event sequence from its initial state. -/
def runV3 (d3 : Pt → Pt → ℚ) (es : List V3Event) : V3.State :=
  runV3From d3 V3.initState3 es

/-- The report form's input element values as read in `getFormData`. -/
structure FormInputs where
  bridgeName : String
  roadId : String
  structureType : String
  sedimentation : String
  clearance : String
  width : String
  lengthRoadWidth : String
deriving DecidableEq

/-- JS `value || dflt`: the empty string is the only falsy string value. -/
def jsOrDefault (v dflt : String) : String := if v = "" then dflt else v

/-- The record built by `getFormData()` (lines 741-752). -/
structure FormData where
  bridgeName : String
  roadId : String
  structureType : String
  sedimentation : String
  clearance : String
  width : String
  length : String
  measureVal : String
deriving DecidableEq

/-- `getFormData()` (lines 741-752): read the form inputs with defaults and
take `measureVal` from the `measureText` element content with the first
occurrence of `"量測值："` replaced by the empty string. -/
def getFormData (inputs : FormInputs) (s : V3.State) : FormData :=
  { bridgeName := jsOrDefault inputs.bridgeName "未命名"
  , roadId := jsOrDefault inputs.roadId "無"
  , structureType := inputs.structureType
  , sedimentation := inputs.sedimentation
  , clearance := inputs.clearance
  , width := inputs.width
  , length := inputs.lengthRoadWidth
  , measureVal := jsReplaceFirst measureLabel "" s.measureText }

/-- The CSV text of `exportToCSV()` (lines 759-768) up to and including the
header cell of the measurement row (everything before the spliced
`data.measureVal`). -/
def csvPre (data : FormData) : String :=
  "\uFEFF" ++ "項目,內容\n"
    ++ "橋名," ++ data.bridgeName ++ "\n"
    ++ "道路編號," ++ data.roadId ++ "\n"
    ++ "類型," ++ data.structureType ++ "\n"
    ++ "淤積程度," ++ data.sedimentation ++ "\n"
    ++ "淨高 (m)," ++ data.clearance ++ "\n"
    ++ "寬度 (m)," ++ data.width ++ "\n"
    ++ "長度 (m)," ++ data.length ++ "\n"
    ++ "最近一次量測結果,"

/-- The full CSV text assembled by `exportToCSV()` (lines 759-768), BOM
included: the rows before the measurement value, the value, and the final
newline. -/
def csvContent (data : FormData) : String :=
  csvPre data ++ data.measureVal ++ "\n"

/-- The HTML document of `exportToWord()` (lines 786-816) up to the spliced
`data.measureVal`. Literal braces of the CSS and the single quotes of the
template are written with hexadecimal escapes. -/
def wordPre (data : FormData) : String :=
  "\n    <html xmlns:o=\x27urn:schemas-microsoft-com:office:office\x27 xmlns:w=\x27urn:schemas-microsoft-com:office:word\x27 xmlns=\x27http://www.w3.org/TR/REC-html40\x27>\n"
  ++ "    <head>\n"
  ++ "       <meta charset=\"utf-8\">\n"
  ++ "       <title>檢測報告</title>\n"
  ++ "       <style>\n"
  ++ "         body \x7b font-family: \x27微軟正黑體\x27, sans-serif; \x7d\n"
  ++ "         table \x7b border-collapse: collapse; width: 100%; \x7d\n"
  ++ "         td, th \x7b border: 1px solid #000; padding: 8px; text-align: left; \x7d\n"
  ++ "         th \x7b background-color: #f2f2f2; \x7d\n"
  ++ "         h1 \x7b text-align: center; \x7d\n"
  ++ "       </style>\n"
  ++ "    </head>\n"
  ++ "    <body>\n"
  ++ "       <h1>橋梁構造物檢測報告</h1>\n"
  ++ "       <table>\n"
  ++ "         <tr><th width=\"30%\">項目</th><th>內容</th></tr>\n"
  ++ "         <tr><td>橋名</td><td>" ++ data.bridgeName ++ "</td></tr>\n"
  ++ "         <tr><td>道路編號</td><td>" ++ data.roadId ++ "</td></tr>\n"
  ++ "         <tr><td>類型</td><td>" ++ data.structureType ++ "</td></tr>\n"
  ++ "         <tr><td>淤積程度</td><td>" ++ data.sedimentation ++ "</td></tr>\n"
  ++ "         <tr><td>淨高 (m)</td><td>" ++ data.clearance ++ "</td></tr>\n"
  ++ "         <tr><td>寬度 (m)</td><td>" ++ data.width ++ "</td></tr>\n"
  ++ "         <tr><td>長度 (m)</td><td>" ++ data.length ++ "</td></tr>\n"
  ++ "         <tr><td>畫面量測紀錄</td><td>"

/-- The HTML document of `exportToWord()` after the spliced `data.measureVal`;
`now` abstracts `new Date().toLocaleString()`. -/
def wordPost (now : String) : String :=
  "</td></tr>\n"
  ++ "       </table>\n"
  ++ "       <br>\n"
  ++ "       <p>匯出時間：" ++ now ++ "</p>\n"
  ++ "    </body>\n"
  ++ "    </html>\n  "

/-- The full HTML document assembled by `exportToWord()` (lines 786-816). -/
def wordContent (now : String) (data : FormData) : String :=
  wordPre data ++ data.measureVal ++ wordPost now

/-- Concrete world points used in witnesses and counterexamples. -/
def ptA : Pt := ⟨0, 0, 0⟩

/-- Second concrete point: at Euclidean distance 5 from `ptA`. -/
def ptB : Pt := ⟨3, 4, 0⟩

/-- Third concrete point, for third-pick scenarios. -/
def ptC : Pt := ⟨1, 1, 1⟩

/-- A degenerate external distance collaborator, for claims that do not
concern the displayed value. -/
def dZero : Pt → Pt → ℚ := fun _ _ => 0

/-- The external distance collaborator at the concrete pair `ptA`, `ptB`:
their Euclidean distance is 5. -/
def dFive : Pt → Pt → ℚ := fun _ _ => 5

/-- A raycast outcome that misses the model but hits the grid helper (at the
world origin): the false-positive pick the spec warns about. -/
def gridOracle : List SceneObj → Option Pt :=
  fun ts => if SceneObj.gridHelper ∈ ts then some ptA else none

/-- Variant-1 state invariant: at most two recorded points, the measurement
line exists exactly when two points are recorded, and the display text always
carries the `量測值：` label. -/
def InvV1 (s : V1.State) : Prop :=
  s.pickedPoints.length ≤ 2
  ∧ (s.pickedLine = true ↔ s.pickedPoints.length = 2)
  ∧ ∃ v, s.measureText = measureLabel ++ v

/-- Variant-3 state invariant: at most one recorded point, and the display
text always carries the `量測值：` label. -/
def InvV3 (s : V3.State) : Prop :=
  s.measurePoints.length ≤ 1
  ∧ ∃ v, s.measureText = measureLabel ++ v

theorem string_data_append (a b : String) : (a ++ b).data = a.data ++ b.data := by
  cases a
  cases b
  rfl

theorem string_append_assoc (a b c : String) : a ++ b ++ c = a ++ (b ++ c) := by
  cases a with
  | mk x =>
    cases b with
    | mk y =>
      cases c with
      | mk z => exact congrArg String.mk (List.append_assoc x y z)

theorem listStartsWith_refl_append (xs ys : List Char) :
    listStartsWith (xs ++ ys) xs = true := by
  induction xs with
  | nil => simp [listStartsWith]
  | cons c cs ih => simp [List.cons_append, listStartsWith, ih]

theorem listReplaceFirst_append (pat rep rest : List Char) (hne : pat ≠ []) :
    listReplaceFirst pat rep (pat ++ rest) = rep ++ rest := by
  cases pat with
  | nil => exact absurd rfl hne
  | cons p ps =>
    have h1 : listStartsWith ((p :: ps) ++ rest) (p :: ps) = true :=
      listStartsWith_refl_append _ _
    have h2 : ((p :: ps) ++ rest).drop (p :: ps).length = rest :=
      List.drop_left _ _
    simp only [List.cons_append] at h1 h2 ⊢
    rw [listReplaceFirst, if_pos h1]
    simp only [List.length_cons] at h2 ⊢
    rw [h2]

theorem jsReplaceFirst_label (v : String) :
    jsReplaceFirst measureLabel "" (measureLabel ++ v) = v := by
  unfold jsReplaceFirst
  rw [if_neg (by decide : ¬ (measureLabel.data.isEmpty = true))]
  rw [string_data_append]
  rw [listReplaceFirst_append _ _ _ (by decide)]
  cases v
  rfl

theorem displayOf_label (v : String) : displayOf (measureLabel ++ v) = v := by
  unfold displayOf
  rw [string_data_append]
  rw [if_pos (listStartsWith_refl_append _ _)]
  rw [List.drop_left]


theorem invV1_clearMeasure (s : V1.State) : InvV1 (V1.clearMeasure s) := by
  have hd : dashText = measureLabel ++ "—" := by decide
  unfold V1.clearMeasure InvV1
  by_cases h : s.pickedLine = true <;>
    simp [h] <;> exact ⟨"—", hd⟩

theorem dashText_label : dashText = measureLabel ++ "—" := by decide

theorem invV1_onPointerDown (d3 : Pt → Pt → ℚ) (raycast : List SceneObj → Option Pt)
    (s : V1.State) (h : InvV1 s) : InvV1 (V1.onPointerDown d3 raycast s) := by
  obtain ⟨h1, h2, h3⟩ := h
  obtain ⟨im, pts, pl, ld, mt, mr, ch⟩ := s
  dsimp only at h1 h2 h3
  unfold V1.onPointerDown
  by_cases hm : im = false
  · rw [if_pos hm]; exact ⟨h1, h2, h3⟩
  rw [if_neg hm]
  cases hr : raycast (V1.pickTargets ⟨im, pts, pl, ld, mt, mr, ch⟩) with
  | none => exact ⟨h1, h2, h3⟩
  | some p =>
    rcases pts with _ | ⟨a, _ | ⟨b, _ | ⟨c, t⟩⟩⟩
    · have hl : pl = false := by simpa using h2
      subst hl
      refine ⟨by simp, by simp, ?_⟩
      simpa using h3
    · have hl : pl = false := by simpa using h2
      subst hl
      simp only [InvV1, V1.updateLine]
      refine ⟨by simp, by simp, ?_⟩
      exact ⟨toFixed 2 (d3 a p) ++ " m", by simp [string_append_assoc]⟩
    · have hl : pl = true := by simpa using h2
      subst hl
      simp only [InvV1, V1.clearMeasure]
      refine ⟨by simp, by simp, "—", by simp [dashText_label]⟩
    · simp at h1

theorem invV1_step (d3 : Pt → Pt → ℚ) (e : V1Event) (s : V1.State)
    (h : InvV1 s) : InvV1 (stepV1 d3 e s) := by
  cases e with
  | pointerDown r => exact invV1_onPointerDown d3 r s h
  | measureBtn => exact h
  | clearBtn => exact invV1_clearMeasure s
  | modelLoad => exact h

theorem invV1_runFrom (d3 : Pt → Pt → ℚ) (s : V1.State) (es : List V1Event)
    (h : InvV1 s) : InvV1 (runV1From d3 s es) := by
  induction es generalizing s with
  | nil => exact h
  | cons e es ih => exact ih _ (invV1_step d3 e s h)

theorem invV1_run (d3 : Pt → Pt → ℚ) (es : List V1Event) : InvV1 (runV1 d3 es) :=
  invV1_runFrom d3 _ es ⟨by decide, by decide, "—", by decide⟩

theorem invV3_addMeasurePoint (d3 : Pt → Pt → ℚ) (p : Pt) (s : V3.State)
    (h : InvV3 s) : InvV3 (V3.addMeasurePoint d3 p s) := by
  obtain ⟨h1, h2⟩ := h
  obtain ⟨im, pts, objs, mt, lm⟩ := s
  dsimp only at h1 h2
  unfold V3.addMeasurePoint
  rcases pts with _ | ⟨q, _ | ⟨r, t⟩⟩
  · refine ⟨by simp, ?_⟩
    simpa using h2
  · refine ⟨by simp, ?_⟩
    exact ⟨toFixed 3 (d3 q p) ++ " m", by simp [string_append_assoc]⟩
  · simp at h1

theorem invV3_step (d3 : Pt → Pt → ℚ) (e : V3Event) (s : V3.State)
    (h : InvV3 s) : InvV3 (stepV3 d3 e s) := by
  cases e with
  | canvasClick hit =>
    simp only [stepV3]
    unfold V3.onCanvasClick
    by_cases hg : (!s.isMeasuring || !s.loadedModel) = true
    · rw [if_pos hg]; exact h
    · rw [if_neg hg]
      cases hit with
      | none => exact h
      | some p => exact invV3_addMeasurePoint d3 p s h
  | measureBtn =>
    simp only [stepV3]
    unfold V3.measureBtnClick V3.resetMeasureState
    obtain ⟨im, pts, objs, mt, lm⟩ := s
    by_cases hb : im = true <;> simp [hb] <;> exact ⟨by simp, h.2⟩
  | clearBtn =>
    exact ⟨by simp [stepV3, V3.clearBtnClick], "—", by simp [stepV3, V3.clearBtnClick, dashText_label]⟩
  | escapeKey =>
    simp only [stepV3]
    unfold V3.escapeKeyDown V3.resetMeasureState
    by_cases hb : s.isMeasuring = true <;> simp [hb]
    · exact ⟨by simp [h.1], h.2⟩
    · exact h
  | modelLoad => exact h

theorem invV3_runFrom (d3 : Pt → Pt → ℚ) (s : V3.State) (es : List V3Event)
    (h : InvV3 s) : InvV3 (runV3From d3 s es) := by
  induction es generalizing s with
  | nil => exact h
  | cons e es ih => exact ih _ (invV3_step d3 e s h)

theorem invV3_run (d3 : Pt → Pt → ℚ) (es : List V3Event) : InvV3 (runV3 d3 es) :=
  invV3_runFrom d3 _ es ⟨by decide, "—", by decide⟩

theorem onPointerDown_disarmed (d3 : Pt → Pt → ℚ) (raycast : List SceneObj → Option Pt)
    (s : V1.State) (hs : s.isMeasuring = false) :
    V1.onPointerDown d3 raycast s = s := by
  unfold V1.onPointerDown
  rw [if_pos hs]

theorem onCanvasClick_disarmed (d3 : Pt → Pt → ℚ) (hit : Option Pt)
    (s : V3.State) (hs : s.isMeasuring = false) :
    V3.onCanvasClick d3 hit s = s := by
  unfold V3.onCanvasClick
  simp [hs]

theorem clearMeasure_eq (s : V1.State) :
    V1.clearMeasure s =
      { s with pickedPoints := [], lastDistance := 0, measureText := dashText,
               pickedLine := false,
               children := if s.pickedLine then s.children.erase SceneObj.measureLine
                           else s.children } := by
  obtain ⟨im, pts, pl, ld, mt, mr, ch⟩ := s
  cases pl <;> simp [V1.clearMeasure]

/-- C7: while disarmed, a pick attempt is a silent no-op in both variants (the
handlers return before touching any state), so every sequence of pick attempts
from a disarmed state leaves the state — in particular the recorded points
(length 0 stays 0) and the markers — unchanged; being total functions, the
handlers cannot crash. -/
theorem C7_disarmed_picks_noop (d3 : Pt → Pt → ℚ) (s : V1.State) (t : V3.State)
    (rs : List (List SceneObj → Option Pt)) (hits : List (Option Pt))
    (hs : s.isMeasuring = false) (ht : t.isMeasuring = false) :
    runV1From d3 s (rs.map V1Event.pointerDown) = s
    ∧ runV3From d3 t (hits.map V3Event.canvasClick) = t := by
  constructor
  · induction rs with
    | nil => rfl
    | cons r rs ih =>
      show runV1From d3 (stepV1 d3 (V1Event.pointerDown r) s) (rs.map V1Event.pointerDown) = s
      rw [show stepV1 d3 (V1Event.pointerDown r) s = s from onPointerDown_disarmed d3 r s hs]
      exact ih
  · induction hits with
    | nil => rfl
    | cons r rs ih =>
      show runV3From d3 (stepV3 d3 (V3Event.canvasClick r) t) (rs.map V3Event.canvasClick) = t
      rw [show stepV3 d3 (V3Event.canvasClick r) t = t from onCanvasClick_disarmed d3 r t ht]
      exact ih

theorem C7_witness :
    runV1From dZero V1.initState
        ([fun _ => some ptA, fun _ => some ptB].map V1Event.pointerDown) = V1.initState
    ∧ runV3From dZero V3.initState3
        ([some ptA, some ptB].map V3Event.canvasClick) = V3.initState3 :=
  C7_disarmed_picks_noop dZero V1.initState V3.initState3
    [fun _ => some ptA, fun _ => some ptB] [some ptA, some ptB] rfl rfl

/-- C8: in both variants the clear command empties the session — no points, no
markers or segment, distance reset, placeholder text — while leaving the
armed/disarmed flag untouched; it is idempotent, and on an already-empty
session it is a no-op. -/
theorem C8_clear_empties (s e : V1.State) (t f : V3.State)
    (he1 : e.pickedPoints = []) (he2 : e.pickedLine = false)
    (he3 : e.measureText = dashText) (he4 : e.lastDistance = 0)
    (hf1 : f.measurePoints = []) (hf2 : f.measureObjects = [])
    (hf3 : f.measureText = dashText) :
    (V1.clearMeasure s).pickedPoints = []
    ∧ (V1.clearMeasure s).pickedLine = false
    ∧ (V1.clearMeasure s).lastDistance = 0
    ∧ (V1.clearMeasure s).measureText = dashText
    ∧ (V1.clearMeasure s).isMeasuring = s.isMeasuring
    ∧ V1.clearMeasure (V1.clearMeasure s) = V1.clearMeasure s
    ∧ V1.clearMeasure e = e
    ∧ (V3.clearBtnClick t).measurePoints = []
    ∧ (V3.clearBtnClick t).measureObjects = []
    ∧ (V3.clearBtnClick t).measureText = dashText
    ∧ (V3.clearBtnClick t).isMeasuring = t.isMeasuring
    ∧ V3.clearBtnClick (V3.clearBtnClick t) = V3.clearBtnClick t
    ∧ V3.clearBtnClick f = f := by
  refine ⟨?_, ?_, ?_, ?_, ?_, ?_, ?_, rfl, rfl, rfl, rfl, rfl, ?_⟩
  · rw [clearMeasure_eq]
  · rw [clearMeasure_eq]
  · rw [clearMeasure_eq]
  · rw [clearMeasure_eq]
  · rw [clearMeasure_eq]
  · rw [clearMeasure_eq, clearMeasure_eq]
    simp
  · obtain ⟨im, pts, pl, ld, mt, mr, ch⟩ := e
    dsimp only at he1 he2 he3 he4
    subst he1; subst he2; subst he3; subst he4
    rw [clearMeasure_eq]
    simp
  · obtain ⟨im, pts, objs, mt, lm⟩ := f
    dsimp only at hf1 hf2 hf3
    subst hf1; subst hf2; subst hf3
    rfl

theorem C8_witness :
    (V1.clearMeasure V1.initState).pickedPoints = []
    ∧ (V1.clearMeasure V1.initState).pickedLine = false
    ∧ (V1.clearMeasure V1.initState).lastDistance = 0
    ∧ (V1.clearMeasure V1.initState).measureText = dashText
    ∧ (V1.clearMeasure V1.initState).isMeasuring = V1.initState.isMeasuring
    ∧ V1.clearMeasure (V1.clearMeasure V1.initState) = V1.clearMeasure V1.initState
    ∧ V1.clearMeasure V1.initState = V1.initState
    ∧ (V3.clearBtnClick V3.initState3).measurePoints = []
    ∧ (V3.clearBtnClick V3.initState3).measureObjects = []
    ∧ (V3.clearBtnClick V3.initState3).measureText = dashText
    ∧ (V3.clearBtnClick V3.initState3).isMeasuring = V3.initState3.isMeasuring
    ∧ V3.clearBtnClick (V3.clearBtnClick V3.initState3) = V3.clearBtnClick V3.initState3
    ∧ V3.clearBtnClick V3.initState3 = V3.initState3 :=
  C8_clear_empties V1.initState V1.initState V3.initState3 V3.initState3
    rfl rfl rfl rfl rfl rfl rfl

/-- C10: in the sphere-marker variant the recorded-points list has length at
most 1 after every event sequence; completing a measurement (a pick with one
point already recorded) empties the points list within the same handler, and a
pick from the emptied state records the new point as a fresh first point. -/
theorem C10_points_bound (d3 : Pt → Pt → ℚ) (es : List V3Event)
    (t u : V3.State) (p r q : Pt)
    (ht : t.measurePoints = [q]) (hu : u.measurePoints = []) :
    (runV3 d3 es).measurePoints.length ≤ 1
    ∧ (V3.addMeasurePoint d3 p t).measurePoints = []
    ∧ (V3.addMeasurePoint d3 r u).measurePoints = [r] := by
  refine ⟨(invV3_run d3 es).1, ?_, ?_⟩
  · obtain ⟨im, pts, objs, mt, lm⟩ := t
    dsimp only at ht
    subst ht
    simp [V3.addMeasurePoint]
  · obtain ⟨im, pts, objs, mt, lm⟩ := u
    dsimp only at hu
    subst hu
    simp [V3.addMeasurePoint]

theorem C10_witness :
    (runV3 dZero [V3Event.modelLoad, V3Event.measureBtn,
        V3Event.canvasClick (some ptA)]).measurePoints.length ≤ 1
    ∧ (V3.addMeasurePoint dZero ptB
        ⟨true, [ptA], [V3Obj.sphere ptA], dashText, true⟩).measurePoints = []
    ∧ (V3.addMeasurePoint dZero ptC V3.initState3).measurePoints = [ptC] :=
  C10_points_bound dZero
    [V3Event.modelLoad, V3Event.measureBtn, V3Event.canvasClick (some ptA)]
    ⟨true, [ptA], [V3Obj.sphere ptA], dashText, true⟩ V3.initState3
    ptB ptC ptA rfl rfl

theorem v1_pick_first (d3 : Pt → Pt → ℚ) (raycast : List SceneObj → Option Pt)
    (s : V1.State) (p : Pt)
    (hm : s.isMeasuring = true) (hp : s.pickedPoints = [])
    (hr : raycast (V1.pickTargets s) = some p) :
    V1.onPointerDown d3 raycast s = { s with pickedPoints := [p] } := by
  obtain ⟨im, pts, pl, ld, mt, mr, ch⟩ := s
  dsimp only at hm hp hr ⊢
  subst hm; subst hp
  unfold V1.onPointerDown
  rw [if_neg (by simp)]
  rw [hr]
  rfl

theorem v1_pick_second (d3 : Pt → Pt → ℚ) (raycast : List SceneObj → Option Pt)
    (s : V1.State) (a p : Pt)
    (hm : s.isMeasuring = true) (hp : s.pickedPoints = [a])
    (hl : s.pickedLine = false)
    (hr : raycast (V1.pickTargets s) = some p) :
    V1.onPointerDown d3 raycast s =
      { s with pickedPoints := [a, p], pickedLine := true,
               children := s.children ++ [SceneObj.measureLine],
               lastDistance := d3 a p,
               measureText := measureLabel ++ toFixed 2 (d3 a p) ++ " m" } := by
  obtain ⟨im, pts, pl, ld, mt, mr, ch⟩ := s
  dsimp only at hm hp hl hr ⊢
  subst hm; subst hp; subst hl
  unfold V1.onPointerDown
  rw [if_neg (by simp)]
  rw [hr]
  rfl

theorem v1_pick_third (d3 : Pt → Pt → ℚ) (raycast : List SceneObj → Option Pt)
    (s : V1.State) (a b p : Pt)
    (hm : s.isMeasuring = true) (hp : s.pickedPoints = [a, b])
    (hr : raycast (V1.pickTargets s) = some p) :
    V1.onPointerDown d3 raycast s =
      { s with pickedPoints := [p], pickedLine := false,
               lastDistance := 0, measureText := dashText,
               children := if s.pickedLine then s.children.erase SceneObj.measureLine
                           else s.children } := by
  obtain ⟨im, pts, pl, ld, mt, mr, ch⟩ := s
  dsimp only at hm hp hr ⊢
  subst hm; subst hp
  unfold V1.onPointerDown
  rw [if_neg (by simp)]
  rw [hr]
  cases pl <;> simp [V1.clearMeasure]

/-- C1 counterexample: in the sphere-marker variant a further pick after a
completed measurement does NOT discard the prior points' markers and their
connecting segment. After picks at `ptA` and `ptB` complete a measurement, a
further pick at `ptC` leaves both prior spheres and the segment in the scene
(plus the new sphere) — the marker list is not the single new-point marker the
claim requires — and only the recorded-points list is restarted. -/
theorem C1_counterexample :
    (runV3 dZero [V3Event.modelLoad, V3Event.measureBtn,
        V3Event.canvasClick (some ptA), V3Event.canvasClick (some ptB),
        V3Event.canvasClick (some ptC)]).measureObjects
      = [V3Obj.sphere ptA, V3Obj.sphere ptB, V3Obj.segment ptA ptB, V3Obj.sphere ptC]
    ∧ (runV3 dZero [V3Event.modelLoad, V3Event.measureBtn,
        V3Event.canvasClick (some ptA), V3Event.canvasClick (some ptB),
        V3Event.canvasClick (some ptC)]).measureObjects ≠ [V3Obj.sphere ptC]
    ∧ (runV3 dZero [V3Event.modelLoad, V3Event.measureBtn,
        V3Event.canvasClick (some ptA), V3Event.canvasClick (some ptB),
        V3Event.canvasClick (some ptC)]).measurePoints = [ptC] := by
  refine ⟨by decide, by decide, by decide⟩

/-- C1 (amended): a pick after a completed measurement always restarts the
measurement with the new point as the sole recorded point (never three
accumulated points). In the line variant it also discards both prior points,
the connecting segment and the shown distance; in the sphere-marker variant
the prior markers and segment remain in the scene and only a fresh sphere for
the new point is added. -/
theorem C1_third_pick_restarts (d3 : Pt → Pt → ℚ)
    (raycast : List SceneObj → Option Pt) (s : V1.State) (a b p : Pt)
    (t : V3.State)
    (h1 : s.isMeasuring = true) (h2 : s.pickedPoints = [a, b])
    (h3 : raycast (V1.pickTargets s) = some p)
    (h4 : t.isMeasuring = true) (h5 : t.loadedModel = true)
    (h6 : t.measurePoints = []) :
    (V1.onPointerDown d3 raycast s).pickedPoints = [p]
    ∧ (V1.onPointerDown d3 raycast s).pickedLine = false
    ∧ (V1.onPointerDown d3 raycast s).measureText = dashText
    ∧ V3.onCanvasClick d3 (some p) t
      = { t with measurePoints := [p],
                 measureObjects := t.measureObjects ++ [V3Obj.sphere p] } := by
  rw [v1_pick_third d3 raycast s a b p h1 h2 h3]
  refine ⟨rfl, rfl, rfl, ?_⟩
  obtain ⟨im, pts, objs, mt, lm⟩ := t
  dsimp only at h4 h5 h6
  subst h4; subst h5; subst h6
  rfl

theorem C1_witness :
    (V1.onPointerDown dZero (fun _ => some ptC)
        ⟨true, [ptA, ptB], true, 0, dashText, true,
          [SceneObj.ambientLight, SceneObj.dirLight, SceneObj.gridHelper,
           SceneObj.model, SceneObj.measureLine]⟩).pickedPoints = [ptC]
    ∧ (V1.onPointerDown dZero (fun _ => some ptC)
        ⟨true, [ptA, ptB], true, 0, dashText, true,
          [SceneObj.ambientLight, SceneObj.dirLight, SceneObj.gridHelper,
           SceneObj.model, SceneObj.measureLine]⟩).pickedLine = false
    ∧ (V1.onPointerDown dZero (fun _ => some ptC)
        ⟨true, [ptA, ptB], true, 0, dashText, true,
          [SceneObj.ambientLight, SceneObj.dirLight, SceneObj.gridHelper,
           SceneObj.model, SceneObj.measureLine]⟩).measureText = dashText
    ∧ V3.onCanvasClick dZero (some ptC)
        ⟨true, [], [V3Obj.sphere ptA, V3Obj.sphere ptB, V3Obj.segment ptA ptB],
          dashText, true⟩
      = { measurePoints := [ptC],
          measureObjects := [V3Obj.sphere ptA, V3Obj.sphere ptB,
            V3Obj.segment ptA ptB] ++ [V3Obj.sphere ptC],
          isMeasuring := true, measureText := dashText, loadedModel := true } :=
  C1_third_pick_restarts dZero (fun _ => some ptC)
    ⟨true, [ptA, ptB], true, 0, dashText, true,
      [SceneObj.ambientLight, SceneObj.dirLight, SceneObj.gridHelper,
       SceneObj.model, SceneObj.measureLine]⟩ ptA ptB ptC
    ⟨true, [], [V3Obj.sphere ptA, V3Obj.sphere ptB, V3Obj.segment ptA ptB],
      dashText, true⟩ rfl rfl rfl rfl rfl rfl

/-- C2 counterexample: in the sphere-marker variant, immediately after a
completed measurement (a reachable post-handler state) there are 0 recorded
points but 2 sphere markers and 1 segment in the scene — the claimed
"0 points implies 0 point markers and 0 segments" fails. (The line variant
also violates the claim differently: it never creates per-point markers.) -/
theorem C2_counterexample :
    (runV3 dZero [V3Event.modelLoad, V3Event.measureBtn,
        V3Event.canvasClick (some ptA), V3Event.canvasClick (some ptB)]).measurePoints = []
    ∧ (runV3 dZero [V3Event.modelLoad, V3Event.measureBtn,
        V3Event.canvasClick (some ptA), V3Event.canvasClick (some ptB)]).measureObjects
      = [V3Obj.sphere ptA, V3Obj.sphere ptB, V3Obj.segment ptA ptB] := by
  refine ⟨by decide, by decide⟩

/-- C2 (amended): in the line variant, after every event sequence at most two
points are recorded and the connecting segment exists exactly when two points
are recorded (the variant draws no per-point markers at all). In the
sphere-marker variant the marker count decouples from the recorded points:
completing a measurement leaves 0 recorded points while adding the second
sphere and the segment to the markers already in the scene. -/
theorem C2_markers_vs_points (d3 : Pt → Pt → ℚ) (es : List V1Event)
    (t : V3.State) (q p : Pt) (ht : t.measurePoints = [q]) :
    (runV1 d3 es).pickedPoints.length ≤ 2
    ∧ ((runV1 d3 es).pickedLine = true ↔ (runV1 d3 es).pickedPoints.length = 2)
    ∧ (V3.addMeasurePoint d3 p t).measurePoints = []
    ∧ (V3.addMeasurePoint d3 p t).measureObjects
      = t.measureObjects ++ [V3Obj.sphere p, V3Obj.segment q p] := by
  refine ⟨(invV1_run d3 es).1, (invV1_run d3 es).2.1, ?_, ?_⟩
  · obtain ⟨im, pts, objs, mt, lm⟩ := t
    dsimp only at ht
    subst ht
    simp [V3.addMeasurePoint]
  · obtain ⟨im, pts, objs, mt, lm⟩ := t
    dsimp only at ht
    subst ht
    simp [V3.addMeasurePoint]

theorem C2_witness :
    (runV1 dZero [V1Event.modelLoad, V1Event.measureBtn,
        V1Event.pointerDown (fun _ => some ptA)]).pickedPoints.length ≤ 2
    ∧ ((runV1 dZero [V1Event.modelLoad, V1Event.measureBtn,
        V1Event.pointerDown (fun _ => some ptA)]).pickedLine = true
       ↔ (runV1 dZero [V1Event.modelLoad, V1Event.measureBtn,
        V1Event.pointerDown (fun _ => some ptA)]).pickedPoints.length = 2)
    ∧ (V3.addMeasurePoint dZero ptB
        ⟨true, [ptA], [V3Obj.sphere ptA], dashText, true⟩).measurePoints = []
    ∧ (V3.addMeasurePoint dZero ptB
        ⟨true, [ptA], [V3Obj.sphere ptA], dashText, true⟩).measureObjects
      = [V3Obj.sphere ptA] ++ [V3Obj.sphere ptB, V3Obj.segment ptA ptB] :=
  C2_markers_vs_points dZero
    [V1Event.modelLoad, V1Event.measureBtn, V1Event.pointerDown (fun _ => some ptA)]
    ⟨true, [ptA], [V3Obj.sphere ptA], dashText, true⟩ ptA ptB rfl

/-- C3 counterexample: disarming with one dangling point does not discard both
the point and its marker. In the line variant the dangling point itself is
retained (`btnMeasure` only toggles the flag); in the sphere-marker variant
the point is dropped but its sphere marker stays in the scene. -/
theorem C3_counterexample :
    (runV1 dZero [V1Event.modelLoad, V1Event.measureBtn,
        V1Event.pointerDown (fun _ => some ptA), V1Event.measureBtn]).pickedPoints = [ptA]
    ∧ (runV1 dZero [V1Event.modelLoad, V1Event.measureBtn,
        V1Event.pointerDown (fun _ => some ptA), V1Event.measureBtn]).isMeasuring = false
    ∧ (runV3 dZero [V3Event.modelLoad, V3Event.measureBtn,
        V3Event.canvasClick (some ptA), V3Event.measureBtn]).measurePoints = []
    ∧ (runV3 dZero [V3Event.modelLoad, V3Event.measureBtn,
        V3Event.canvasClick (some ptA), V3Event.measureBtn]).measureObjects
      = [V3Obj.sphere ptA]
    ∧ (runV3 dZero [V3Event.modelLoad, V3Event.measureBtn,
        V3Event.canvasClick (some ptA), V3Event.measureBtn]).isMeasuring = false := by
  refine ⟨by decide, by decide, by decide, by decide, by decide⟩

/-- C3 (amended): in the line variant, disarm toggles the mode flag only, so a
dangling point is retained rather than discarded. In the sphere-marker
variant, disarm and Escape discard the dangling recorded points but leave
every marker and the display text untouched; the preserved markers are removed
only by the clear command. Consequently, disarm from a completed measurement
preserves its markers and displayed distance until a clear, in both variants. -/
theorem C3_disarm_behavior (s : V1.State) (t u : V3.State)
    (ht : t.isMeasuring = true) (hu : u.isMeasuring = true) :
    V1.toggleMeasureClick s = { s with isMeasuring := !s.isMeasuring }
    ∧ (V3.measureBtnClick t).isMeasuring = false
    ∧ (V3.measureBtnClick t).measurePoints = []
    ∧ (V3.measureBtnClick t).measureObjects = t.measureObjects
    ∧ (V3.measureBtnClick t).measureText = t.measureText
    ∧ (V3.escapeKeyDown u).isMeasuring = false
    ∧ (V3.escapeKeyDown u).measurePoints = []
    ∧ (V3.escapeKeyDown u).measureObjects = u.measureObjects
    ∧ (V3.escapeKeyDown u).measureText = u.measureText
    ∧ (V3.clearBtnClick t).measureObjects = [] := by
  obtain ⟨imt, ptst, objst, mtt, lmt⟩ := t
  obtain ⟨imu, ptsu, objsu, mtu, lmu⟩ := u
  dsimp only at ht hu
  subst ht; subst hu
  exact ⟨rfl, rfl, rfl, rfl, rfl, rfl, rfl, rfl, rfl, rfl⟩

theorem C3_witness :
    V1.toggleMeasureClick V1.initState
      = { V1.initState with isMeasuring := !V1.initState.isMeasuring }
    ∧ (V3.measureBtnClick
        ⟨true, [ptA], [V3Obj.sphere ptA], dashText, true⟩).isMeasuring = false
    ∧ (V3.measureBtnClick
        ⟨true, [ptA], [V3Obj.sphere ptA], dashText, true⟩).measurePoints = []
    ∧ (V3.measureBtnClick
        ⟨true, [ptA], [V3Obj.sphere ptA], dashText, true⟩).measureObjects
      = (⟨true, [ptA], [V3Obj.sphere ptA], dashText, true⟩ : V3.State).measureObjects
    ∧ (V3.measureBtnClick
        ⟨true, [ptA], [V3Obj.sphere ptA], dashText, true⟩).measureText
      = (⟨true, [ptA], [V3Obj.sphere ptA], dashText, true⟩ : V3.State).measureText
    ∧ (V3.escapeKeyDown
        ⟨true, [ptB], [V3Obj.sphere ptB], dashText, true⟩).isMeasuring = false
    ∧ (V3.escapeKeyDown
        ⟨true, [ptB], [V3Obj.sphere ptB], dashText, true⟩).measurePoints = []
    ∧ (V3.escapeKeyDown
        ⟨true, [ptB], [V3Obj.sphere ptB], dashText, true⟩).measureObjects
      = (⟨true, [ptB], [V3Obj.sphere ptB], dashText, true⟩ : V3.State).measureObjects
    ∧ (V3.escapeKeyDown
        ⟨true, [ptB], [V3Obj.sphere ptB], dashText, true⟩).measureText
      = (⟨true, [ptB], [V3Obj.sphere ptB], dashText, true⟩ : V3.State).measureText
    ∧ (V3.clearBtnClick
        ⟨true, [ptA], [V3Obj.sphere ptA], dashText, true⟩).measureObjects = [] :=
  C3_disarm_behavior V1.initState
    ⟨true, [ptA], [V3Obj.sphere ptA], dashText, true⟩
    ⟨true, [ptB], [V3Obj.sphere ptB], dashText, true⟩ rfl rfl

/-- C4 counterexample: in the line variant, while the model is absent (a
reachable armed state) the raycast target list is the whole `scene.children`,
which contains the grid helper — so a pick is not restricted to the target
surface for every armed state. -/
theorem C4_counterexample :
    SceneObj.gridHelper ∈ V1.pickTargets (runV1 dZero [V1Event.measureBtn])
    ∧ (runV1 dZero [V1Event.measureBtn]).isMeasuring = true := by
  refine ⟨by decide, by decide⟩

/-- C4 (amended): whenever the model has loaded, the ray is intersected
against the model only — in the line variant because `pickTargets` is then the
one-element model list, and in the sphere-marker variant because the raycast
target is always the loaded model and clicks are refused while it is absent.
In the line variant with the model absent, however, the ray is intersected
against all scene children (grid, lights and any measurement line included). -/
theorem C4_targets_model_only (s s' : V1.State) (t : V3.State)
    (d3 : Pt → Pt → ℚ) (hit : Option Pt)
    (hm : s.modelRoot = true) (hm' : s'.modelRoot = false)
    (hl : t.loadedModel = false) :
    V1.pickTargets s = [SceneObj.model]
    ∧ V3.rayTargets = [SceneObj.model]
    ∧ V3.onCanvasClick d3 hit t = t
    ∧ V1.pickTargets s' = s'.children := by
  refine ⟨?_, rfl, ?_, ?_⟩
  · unfold V1.pickTargets
    rw [if_pos hm]
  · unfold V3.onCanvasClick
    simp [hl]
  · unfold V1.pickTargets
    rw [if_neg (by simp [hm'])]

theorem C4_witness :
    V1.pickTargets (V1.modelLoadDone V1.initState) = [SceneObj.model]
    ∧ V3.rayTargets = [SceneObj.model]
    ∧ V3.onCanvasClick dZero (some ptA) V3.initState3 = V3.initState3
    ∧ V1.pickTargets V1.initState = V1.initState.children :=
  C4_targets_model_only (V1.modelLoadDone V1.initState) V1.initState
    V3.initState3 dZero (some ptA) rfl rfl rfl

/-- C6 counterexample: in the line variant with the model absent, the pick is
not a no-op: armed at the initial scene, a raycast that misses the (absent)
model but hits the grid helper records a point. -/
theorem C6_counterexample :
    (runV1 dZero [V1Event.measureBtn, V1Event.pointerDown gridOracle]).pickedPoints
      = [ptA]
    ∧ (runV1 dZero [V1Event.measureBtn]).modelRoot = false := by
  refine ⟨by decide, by decide⟩

/-- C6 (amended): in the sphere-marker variant a pick attempt while the model
is absent is a complete no-op for any input coordinates. In the line variant
the same holds only when the scene-wide fallback raycast misses: with the
model absent the handler raycasts all scene children, and a hit on an
auxiliary object (such as the grid) records a point. -/
theorem C6_no_model_pick (d3 : Pt → Pt → ℚ) (hit : Option Pt) (t : V3.State)
    (raycast : List SceneObj → Option Pt) (s : V1.State)
    (hl : t.loadedModel = false) (hm : s.modelRoot = false)
    (hr : raycast s.children = none) :
    V3.onCanvasClick d3 hit t = t
    ∧ V1.onPointerDown d3 raycast s = s := by
  constructor
  · unfold V3.onCanvasClick
    simp [hl]
  · unfold V1.onPointerDown
    by_cases hme : s.isMeasuring = false
    · rw [if_pos hme]
    · rw [if_neg hme]
      have : V1.pickTargets s = s.children := by
        unfold V1.pickTargets
        rw [if_neg (by simp [hm])]
      rw [this, hr]

theorem C6_witness :
    V3.onCanvasClick dZero (some ptA) V3.initState3 = V3.initState3
    ∧ V1.onPointerDown dZero (fun _ => none) V1.initState = V1.initState :=
  C6_no_model_pick dZero (some ptA) V3.initState3 (fun _ => none)
    V1.initState rfl rfl rfl

/-- C5: with the external `distanceTo` collaborator returning the Euclidean
distance — the unique nonnegative `d` with `d · d = euclidSq A B` — two valid
picks at `A` and `B` display exactly that distance rendered by `toFixed` (2
decimals in the line variant, 3 in the sphere variant) with the `" m"` suffix,
after the fixed `量測值：` UI label; and whenever no measurement is displayed
(initially and after a clear) the display value is the placeholder dash. -/
theorem C5_display (d3 : Pt → Pt → ℚ) (A B : Pt) (s : V1.State) (t : V3.State)
    (_h0 : 0 ≤ d3 A B) (_h1 : d3 A B * d3 A B = euclidSq A B) :
    (runV1 d3 [V1Event.modelLoad, V1Event.measureBtn,
        V1Event.pointerDown (fun _ => some A),
        V1Event.pointerDown (fun _ => some B)]).measureText
      = measureLabel ++ toFixed 2 (d3 A B) ++ " m"
    ∧ (runV3 d3 [V3Event.modelLoad, V3Event.measureBtn,
        V3Event.canvasClick (some A), V3Event.canvasClick (some B)]).measureText
      = measureLabel ++ toFixed 3 (d3 A B) ++ " m"
    ∧ V3.getDisplayText (runV3 d3 [V3Event.modelLoad, V3Event.measureBtn,
        V3Event.canvasClick (some A), V3Event.canvasClick (some B)])
      = toFixed 3 (d3 A B) ++ " m"
    ∧ displayOf V1.initState.measureText = "—"
    ∧ V3.getDisplayText V3.initState3 = "—"
    ∧ displayOf (V1.clearMeasure s).measureText = "—"
    ∧ V3.getDisplayText (V3.clearBtnClick t) = "—" := by
  have hv3 : (runV3 d3 [V3Event.modelLoad, V3Event.measureBtn,
      V3Event.canvasClick (some A), V3Event.canvasClick (some B)]).measureText
      = measureLabel ++ toFixed 3 (d3 A B) ++ " m" := rfl
  refine ⟨rfl, hv3, ?_, by decide, by decide, ?_, ?_⟩
  · unfold V3.getDisplayText
    rw [hv3, string_append_assoc, displayOf_label]
  · rw [clearMeasure_eq]
    show displayOf dashText = "—"
    decide
  · show displayOf dashText = "—"
    decide

theorem C5_witness :
    (0 : ℚ) ≤ dFive ptA ptB
    ∧ dFive ptA ptB * dFive ptA ptB = euclidSq ptA ptB
    ∧ (runV1 dFive [V1Event.modelLoad, V1Event.measureBtn,
        V1Event.pointerDown (fun _ => some ptA),
        V1Event.pointerDown (fun _ => some ptB)]).measureText = "量測值：5.00 m"
    ∧ (runV3 dFive [V3Event.modelLoad, V3Event.measureBtn,
        V3Event.canvasClick (some ptA), V3Event.canvasClick (some ptB)]).measureText
      = "量測值：5.000 m"
    ∧ V3.getDisplayText (runV3 dFive [V3Event.modelLoad, V3Event.measureBtn,
        V3Event.canvasClick (some ptA), V3Event.canvasClick (some ptB)])
      = "5.000 m" := by
  have h0 : (0 : ℚ) ≤ dFive ptA ptB := by norm_num [dFive]
  have h1 : dFive ptA ptB * dFive ptA ptB = euclidSq ptA ptB := by
    norm_num [dFive, euclidSq, ptA, ptB]
  have h := C5_display dFive ptA ptB V1.initState V3.initState3 h0 h1
  refine ⟨h0, h1, ?_, ?_, ?_⟩
  · exact h.1.trans (by decide)
  · exact h.2.1.trans (by decide)
  · exact h.2.2.1.trans (by decide)

/-- C9: the export operations embed the current display value verbatim. For
every display state (every reachable `measureText` is the label followed by a
value), `getFormData`'s `measureVal` equals `getDisplayText` — the formatted
distance or placeholder — and both the CSV and the Word document are exactly
the surrounding template with that string spliced in unchanged. -/
theorem C9_export_verbatim (inputs : FormInputs) (s : V3.State) (v now : String)
    (h : s.measureText = measureLabel ++ v) :
    (getFormData inputs s).measureVal = V3.getDisplayText s
    ∧ V3.getDisplayText s = v
    ∧ csvContent (getFormData inputs s)
      = csvPre (getFormData inputs s) ++ V3.getDisplayText s ++ "\n"
    ∧ wordContent now (getFormData inputs s)
      = wordPre (getFormData inputs s) ++ V3.getDisplayText s ++ wordPost now := by
  have hgd : V3.getDisplayText s = v := by
    unfold V3.getDisplayText
    rw [h, displayOf_label]
  have hmv : (getFormData inputs s).measureVal = v := by
    show jsReplaceFirst measureLabel "" s.measureText = v
    rw [h, jsReplaceFirst_label]
  refine ⟨hmv.trans hgd.symm, hgd, ?_, ?_⟩
  · unfold csvContent
    rw [hmv, hgd]
  · unfold wordContent
    rw [hmv, hgd]

theorem C9_witness :
    (getFormData ⟨"", "", "", "", "", "", ""⟩ V3.initState3).measureVal = "—"
    ∧ csvContent (getFormData ⟨"", "", "", "", "", "", ""⟩ V3.initState3)
      = csvPre (getFormData ⟨"", "", "", "", "", "", ""⟩ V3.initState3) ++ "—" ++ "\n"
    ∧ wordContent "2026-10-11" (getFormData ⟨"", "", "", "", "", "", ""⟩ V3.initState3)
      = wordPre (getFormData ⟨"", "", "", "", "", "", ""⟩ V3.initState3)
        ++ "—" ++ wordPost "2026-10-11" := by
  have h := C9_export_verbatim ⟨"", "", "", "", "", "", ""⟩ V3.initState3 "—"
    "2026-10-11" (by decide)
  refine ⟨h.1.trans h.2.1, ?_, ?_⟩
  · exact h.2.2.1.trans (by rw [h.2.1])
  · exact h.2.2.2.trans (by rw [h.2.1])
